import Mathlib

/-!
Shallow embedding of the DWSIM screening scripts (run_screening.py,
debug_pfr.py, inspect_pfr.py).

The scripts drive the DWSIM automation engine through per-case setup,
solve, extract and record steps.  Engine behaviour (which properties a
unit exposes, what each engine call returns or raises) is modelled as
explicit environment data; the orchestration logic of the scripts is
translated directly into Lean functions on that data.  Python floats are
idealised as rationals, Python dicts as insertion-ordered association
lists.
-/

namespace DwsimScreening

/-! ### Reaction-set binding (run_screening.py lines 261-275, debug_pfr.py lines 159-203) -/

/-- The four binding mechanisms for attaching a reaction set to a reactor
that the spec enumerates. -/
inductive Strategy where
  /-- indexed numeric property named "Reaction Set" -/
  | reactionSetIndexed
  /-- indexed numeric property named "ReactionSet" -/
  | reactionSetNoSpace
  /-- string-identifier property named "ReactionSetID" -/
  | reactionSetID
  /-- direct dynamic attribute assignment -/
  | dynamicAttr
deriving DecidableEq

/-- Capability set of a unit handle: which binding mechanisms the unit
actually supports (which named properties it exposes, whether dynamic
attribute assignment lands). -/
structure UnitCaps where
  hasReactionSetIndexed : Bool
  hasReactionSetNoSpace : Bool
  hasReactionSetID : Bool
  allowsDynamicAttr : Bool
deriving DecidableEq

/-- Whether a capability set supports a given strategy. -/
def UnitCaps.supports (caps : UnitCaps) : Strategy → Bool
  | .reactionSetIndexed => caps.hasReactionSetIndexed
  | .reactionSetNoSpace => caps.hasReactionSetNoSpace
  | .reactionSetID => caps.hasReactionSetID
  | .dynamicAttr => caps.allowsDynamicAttr

/-- Binding logic of run_screening.py (lines 264-275): reflection probe for
the property "ReactionSetID"; if present, write through it; otherwise fall
back to SetPropertyValue under the name "Reaction Set" (writing the set id);
an exception from the fallback is caught by the surrounding handler, which
only prints.  Returns the strategy that succeeded, or none when the binding
attempt was exhausted. -/
def bindReactionSetScreening (caps : UnitCaps) : Option Strategy :=
  if caps.hasReactionSetID then some .reactionSetID
  else if caps.hasReactionSetIndexed then some .reactionSetIndexed
  else none

/-- Binding logic of debug_pfr.py (lines 174-203): Method 1 probes the
property "Reaction Set" (Int), Method 2 probes "ReactionSet" (Int),
Method 3 assigns the python attribute directly; there is no
"ReactionSetID" method. -/
def bindReactionSetDebug (caps : UnitCaps) : Option Strategy :=
  if caps.hasReactionSetIndexed then some .reactionSetIndexed
  else if caps.hasReactionSetNoSpace then some .reactionSetNoSpace
  else if caps.allowsDynamicAttr then some .dynamicAttr
  else none

/-- Resolver following the words of the spec (section 4.2): fixed priority
order (1) "Reaction Set" indexed, (2) "ReactionSet" indexed,
(3) "ReactionSetID" string, (4) dynamic attribute; first applicable wins.
Stated only to compare against the two resolvers taken from the source. -/
def bindReactionSetSpec (caps : UnitCaps) : Option Strategy :=
  if caps.hasReactionSetIndexed then some .reactionSetIndexed
  else if caps.hasReactionSetNoSpace then some .reactionSetNoSpace
  else if caps.hasReactionSetID then some .reactionSetID
  else if caps.allowsDynamicAttr then some .dynamicAttr
  else none

/-- First applicable strategy of an ordered candidate list. -/
def firstApplicable (order : List Strategy) (caps : UnitCaps) : Option Strategy :=
  order.find? (fun s => caps.supports s)

/-! ### Result rows (python dicts) -/

/-- A scalar value stored in a result row. -/
inductive Value where
  | num (q : ℚ)
  | str (s : String)
  | bool (b : Bool)
deriving DecidableEq

/-- A result row: an insertion-ordered association list, modelling a python
dict whose keys are each assigned once. -/
abbrev Row := List (String × Value)

/-- Dict lookup: value of the first binding of the key, if any. -/
def lookupRow (k : String) : Row → Option Value
  | [] => none
  | kv :: rest => if kv.1 = k then some kv.2 else lookupRow k rest

/-- The keys of a row, in insertion order. -/
def rowKeys (r : Row) : List String := r.map (fun kv => kv.1)

/-- SimulationManager.log_result: sets CaseType and Timestamp on the dict
(both fresh keys, so appended at the end) before the dict is appended to
the results list. -/
def tagRow (case_type timestamp : String) (logs : Row) : Row :=
  logs ++ [("CaseType", Value.str case_type), ("Timestamp", Value.str timestamp)]

/-- SimulationManager.log_result including the append to self.results. -/
def log_result (case_type timestamp : String) (logs : Row) (results : List Row) :
    List Row :=
  results ++ [tagRow case_type timestamp logs]

/-! ### Solve wrapper (run_screening.py lines 146-151) -/

/-- SimulationManager.run_simulation: CalculateFlowsheet2 returns either a
null reference (modelled as none) or a list of error strings; null is
normalised to success with an empty list, otherwise success iff the list
is empty. -/
def run_simulation (err_list : Option (List String)) : Bool × List String :=
  match err_list with
  | none => (true, [])
  | some l => (l.length == 0, l)

/-! ### Metric extraction helpers (run_screening.py lines 310-343) -/

/-- get_comp_flow: the whole read (Molar Flow times composition entry) sits
in a try block whose handler returns 0.0.  The engine outcome of one call
is the Except argument. -/
def get_comp_flow (read : Except String ℚ) : ℚ :=
  match read with
  | .ok v => v
  | .error _ => 0

/-- Conversion (run_screening.py line 343):
(in_flow - out_flow_A) / in_flow if in_flow > 0 else 0. -/
def conversion (in_flow out_flow_A : ℚ) : ℚ :=
  if in_flow > 0 then (in_flow - out_flow_A) / in_flow else 0

/-- Rendering of str(errors) for a list of solver error strings; always
bracketed, hence never the empty string. -/
def pyStrList (l : List String) : String :=
  "[" ++ String.intercalate ", " l ++ "]"

/-! ### One PFR case (run_screening.py lines 173-368) -/

/-- Engine behaviour for one PFR case.  earlyExc: an exception raised in
the setup steps before the solve call that are not locally guarded
(flowsheet creation, stream creation, CreateKineticReaction, reaction-set
lookup, AddObject for the reactor); solveExc: CalculateFlowsheet2 raising;
solveErr: its returned error list; the five reads drive EXTRACT.
tempRead and dutyRead are issued outside any local try block. -/
structure PfrEnv where
  timestamp : String
  earlyExc : Option String
  caps : UnitCaps
  bindExcMsg : String
  configExc : Option String
  solveExc : Option String
  solveErr : Option (List String)
  feedWaterRead : Except String ℚ
  prodWaterRead : Except String ℚ
  prodEthanolRead : Except String ℚ
  tempRead : Except String ℚ
  dutyRead : Except String ℚ

/-- Console line of the binding exception handler (line 275). -/
def bindErrLine (msg : String) : String :=
  "Error setting Reaction Set ID: " ++ msg

/-- Console output of the reaction-set binding block: the handler prints
only when the attempt is exhausted; nothing is written to the row. -/
def bindConsole (caps : UnitCaps) (msg : String) : List String :=
  match bindReactionSetScreening caps with
  | some _ => []
  | none => [bindErrLine msg]

/-- Console output of the volume and operation-mode try block (line 293):
a caught exception is printed and otherwise ignored. -/
def configConsole (configExc : Option String) : List String :=
  match configExc with
  | some m => ["Prop Set Error: " ++ m]
  | none => []

/-- Console line of the per-case exception handler (line 362). -/
def pfrFailLine (msg : String) : String :=
  "PFR Simulation Failed: " ++ msg

/-- Row logged by the per-case exception handler (lines 363-368). -/
def pfrFailRow (temp vol : ℚ) (msg : String) : Row :=
  [("Temperature_K", Value.num temp), ("Volume_m3", Value.num vol),
   ("Success", Value.bool false), ("Error", Value.str msg)]

/-- Row logged on the normal path (lines 348-357), in source key order. -/
def pfrOkRow (temp vol conv out_B outlet_temp duty : ℚ)
    (success : Bool) (errors : List String) : Row :=
  [("Temperature_K", Value.num temp), ("Volume_m3", Value.num vol),
   ("Conversion", Value.num conv), ("OutletFlow_B_mol_s", Value.num out_B),
   ("OutletTemperature_K", Value.num outlet_temp), ("HeatDuty_kW", Value.num duty),
   ("Success", Value.bool success),
   ("Error", Value.str (if success then "" else pyStrList errors))]

/-- One iteration of the PFR sweep body: the try block in source order
(setup, binding with local handler, unit configuration with local handler,
solve, extract, log), with the surrounding except handler producing the
short failure row.  Returns the logged row and the console lines. -/
def runPfrCase (env : PfrEnv) (temp vol : ℚ) : Row × List String :=
  match env.earlyExc with
  | some m => (pfrFailRow temp vol m, [pfrFailLine m])
  | none =>
    let pre := bindConsole env.caps env.bindExcMsg ++ configConsole env.configExc
    match env.solveExc with
    | some m => (pfrFailRow temp vol m, pre ++ [pfrFailLine m])
    | none =>
      let s := run_simulation env.solveErr
      let in_flow := get_comp_flow env.feedWaterRead
      let out_flow_A := get_comp_flow env.prodWaterRead
      let out_flow_B := get_comp_flow env.prodEthanolRead
      let conv := conversion in_flow out_flow_A
      match env.tempRead with
      | .error m => (pfrFailRow temp vol m, pre ++ [pfrFailLine m])
      | .ok outlet_temp =>
        match env.dutyRead with
        | .error m => (pfrFailRow temp vol m, pre ++ [pfrFailLine m])
        | .ok duty =>
          (pfrOkRow temp vol conv out_flow_B outlet_temp duty s.1 s.2,
           pre ++ ["PFR Case: " ++ (if s.1 then "Success" else "Failed")])

/-- Success of a case as the spec defines it: the solve step succeeded and
no unguarded exception occurred anywhere in the case. -/
def pfrCaseOk (env : PfrEnv) : Bool :=
  env.earlyExc.isNone && env.solveExc.isNone &&
  env.tempRead.isOk && env.dutyRead.isOk && (run_simulation env.solveErr).1

/-! ### One distillation case (run_screening.py lines 381-435) -/

/-- Engine behaviour for one distillation case.  earlyExc covers the
unguarded setup steps (flowsheet, compounds, feed, column creation and the
five SetPropertyValue calls); the two duty reads are unguarded as well. -/
structure DistEnv where
  timestamp : String
  earlyExc : Option String
  solveExc : Option String
  solveErr : Option (List String)
  condDutyRead : Except String ℚ
  rebDutyRead : Except String ℚ

/-- Row logged by the distillation per-case exception handler
(lines 430-435). -/
def distFailRow (rr stages : ℚ) (msg : String) : Row :=
  [("RefluxRatio", Value.num rr), ("Stages", Value.num stages),
   ("Success", Value.bool false), ("Error", Value.str msg)]

/-- Row logged on the normal distillation path (lines 416-424); the
distillate purity is the hard-coded placeholder 0.95 from line 414. -/
def distOkRow (rr stages cond_duty reb_duty : ℚ)
    (success : Bool) (errors : List String) : Row :=
  [("RefluxRatio", Value.num rr), ("Stages", Value.num stages),
   ("DistillatePurity", Value.num 0.95),
   ("CondenserDuty_kW", Value.num cond_duty),
   ("ReboilerDuty_kW", Value.num reb_duty),
   ("Success", Value.bool success),
   ("Error", Value.str (if success then "" else pyStrList errors))]

/-- One iteration of the distillation sweep body. -/
def runDistCase (env : DistEnv) (rr stages : ℚ) : Row × List String :=
  match env.earlyExc with
  | some m => (distFailRow rr stages m, ["Distillation Failed: " ++ m])
  | none =>
    match env.solveExc with
    | some m => (distFailRow rr stages m, ["Distillation Failed: " ++ m])
    | none =>
      let s := run_simulation env.solveErr
      match env.condDutyRead with
      | .error m => (distFailRow rr stages m, ["Distillation Failed: " ++ m])
      | .ok cond_duty =>
        match env.rebDutyRead with
        | .error m => (distFailRow rr stages m, ["Distillation Failed: " ++ m])
        | .ok reb_duty =>
          (distOkRow rr stages cond_duty reb_duty s.1 s.2,
           ["Distillation Case: " ++ (if s.1 then "Success" else "Failed")])

/-! ### Case generation (the nested sweep loops) -/

/-- Two nested loops over two axes, outer axis first: the shape of both
sweeps in run_screening.py (lines 173-174 and 381-382). -/
def pairCases {α β : Type} (as : List α) (bs : List β) : List (α × β) :=
  as.flatMap (fun a => bs.map (fun b => (a, b)))

/-- Nested-loop cartesian product of an ordered list of axes, first axis
outermost: the n-axis generalisation of the sweep loops. -/
def cartProd {α : Type} : List (List α) → List (List α)
  | [] => [[]]
  | ax :: rest => ax.flatMap (fun v => (cartProd rest).map (fun c => v :: c))

/-- Temperature axis of the reactor sweep (line 170). -/
def temperatures : List ℚ := [300, 325, 350]

/-- Volume axis of the reactor sweep (line 171). -/
def volumes : List ℚ := [1.0, 2.0, 3.0]

/-- The reactor sweep cases in loop order. -/
def pfrCases : List (ℚ × ℚ) := pairCases temperatures volumes

/-- Reflux-ratio axis of the distillation sweep (line 378). -/
def reflux_ratios : List ℚ := [1.5, 2.0, 3.0]

/-- Stage-count axis of the distillation sweep (line 379). -/
def stages_list : List ℚ := [10, 15, 20]

/-- The distillation sweep cases in loop order. -/
def distCases : List (ℚ × ℚ) := pairCases reflux_ratios stages_list

/-- The PFR sweep over a case list: each case appends exactly one tagged
row to the accumulated results (run_pfr_study). -/
def runPfrSweepOn (cases : List (ℚ × ℚ)) (envf : ℚ × ℚ → PfrEnv)
    (results : List Row) : List Row :=
  cases.foldl
    (fun acc c =>
      log_result "PFR_Sweep" (envf c).timestamp (runPfrCase (envf c) c.1 c.2).1 acc)
    results

/-- The distillation sweep over a case list (run_distillation_study). -/
def runDistSweepOn (cases : List (ℚ × ℚ)) (envf : ℚ × ℚ → DistEnv)
    (results : List Row) : List Row :=
  cases.foldl
    (fun acc c =>
      log_result "Distillation_Sweep" (envf c).timestamp
        (runDistCase (envf c) c.1 c.2).1 acc)
    results

/-! ### Startup (run_screening.py lines 16-75) -/

/-- Environment of the startup sequence: the LOCALAPPDATA value, the
filesystem predicate used by os.path.exists, the interactive input, and
whether the clr.AddReference block succeeds. -/
structure StartupEnv where
  localAppData : String
  pathExists : String → Bool
  userInput : String
  assembliesLoadOk : Bool

/-- os.path.join(path, "DWSIM.Automation.dll"). -/
def joinDll (p : String) : String := p ++ "\\DWSIM.Automation.dll"

/-- POSSIBLE_PATHS (lines 16-20). -/
def possiblePaths (env : StartupEnv) : List String :=
  [env.localAppData ++ "\\DWSIM", "C:\\Program Files\\DWSIM",
   "C:\\Program Files (x86)\\DWSIM"]

/-- The search loop over POSSIBLE_PATHS (lines 22-26): first path whose
joined dll file exists. -/
def findDwsimPath (env : StartupEnv) : Option String :=
  (possiblePaths env).find? (fun p => env.pathExists (joinDll p))

/-- Whitespace characters removed by str.strip at both ends. -/
def pyIsSpace (c : Char) : Bool :=
  c = Char.ofNat 32 || c = Char.ofNat 9 || c = Char.ofNat 10 || c = Char.ofNat 13

/-- str.strip(): drop leading and trailing whitespace. -/
def pyStrip (s : String) : String :=
  String.mk (((s.toList.dropWhile pyIsSpace).reverse.dropWhile pyIsSpace).reverse)

/-- str.replace(c, \x22\x22) for a single character: remove every
occurrence. -/
def removeChar (c : Char) (s : String) : String :=
  String.mk (s.toList.filter (fun x => x ≠ c))

/-- input(...).strip() followed by removing double and single quotes
(lines 35-38); the double quote is character 34 and the single quote
character 39. -/
def cleanInput (s : String) : String :=
  removeChar (Char.ofNat 39) (removeChar (Char.ofNat 34) (pyStrip s))

/-- Interactive fallback (lines 28-45): when the search fails, a
non-empty cleaned input naming a folder that holds the dll is accepted,
anything else exits. -/
def resolveDwsimPath (env : StartupEnv) : Option String :=
  match findDwsimPath env with
  | some p => some p
  | none =>
    let u := cleanInput env.userInput
    if u ≠ "" ∧ env.pathExists (joinDll u) then some u else none

/-- Outcome of the startup portion of the script. -/
inductive StartupResult where
  | ok (path : String)
  | exit (code : ℕ)
deriving DecidableEq

/-- Full startup: path resolution (sys.exit(1) on failure, line 45) then
assembly loading (sys.exit(1) on failure, line 75). -/
def startup (env : StartupEnv) : StartupResult :=
  match resolveDwsimPath env with
  | none => .exit 1
  | some p => if env.assembliesLoadOk then .ok p else .exit 1

/-- The main block (lines 441-459): startup, then the PFR sweep, then the
distillation sweep, then export; a startup failure is a process exit
before any case, while per-case behaviour never escapes the sweeps. -/
def mainRun (senv : StartupEnv) (envP : ℚ × ℚ → PfrEnv)
    (envD : ℚ × ℚ → DistEnv) : Except ℕ (List Row) :=
  match startup senv with
  | .exit n => .error n
  | .ok _ => .ok (runDistSweepOn distCases envD (runPfrSweepOn pfrCases envP []))

/-! ### Tabular export (pandas DataFrame + to_csv, lines 456-458) -/

/-- Rendering of a scalar into its csv cell text. -/
def renderValue : Value → String
  | .num q => toString q.num ++ (if q.den = 1 then "" else "/" ++ toString q.den)
  | .str s => s
  | .bool b => if b then "True" else "False"

/-- Append a key if it was not seen before. -/
def insertKey (acc : List String) (k : String) : List String :=
  if k ∈ acc then acc else acc ++ [k]

/-- Fold the keys of one row into the seen-key list, in row order. -/
def rowInsertKeys (acc : List String) (r : Row) : List String :=
  r.foldl (fun a kv => insertKey a kv.1) acc

/-- Header of pd.DataFrame(rows): the union of all keys of all rows in
first-seen order. -/
def csvHeader (rows : List Row) : List String :=
  rows.foldl rowInsertKeys []

/-- One csv cell: the rendered value, or blank when the row lacks the
column (pandas fills NaN, written as empty by to_csv). -/
def csvCell (r : Row) (k : String) : String :=
  match lookupRow k r with
  | some v => renderValue v
  | none => ""

/-- The data lines of the export, one per row in order. -/
def csvDataLines (rows : List Row) : List String :=
  rows.map (fun r => String.intercalate "," ((csvHeader rows).map (csvCell r)))

/-- Full rendered csv: header line then data lines. -/
def csvRender (rows : List Row) : String :=
  String.intercalate "\n" (String.intercalate "," (csvHeader rows) :: csvDataLines rows)

/-- df.to_csv(output_path): overwrites the target file, ignoring previous
contents. -/
def exportCsv (_fileContents : Option String) (rows : List Row) : Option String :=
  some (csvRender rows)

/-! ### Concrete environments used as scenario inputs -/

/-- A PFR-case environment in which every engine interaction succeeds. -/
def envOk : PfrEnv :=
  { timestamp := "00:00:00", earlyExc := none,
    caps := ⟨true, false, false, false⟩, bindExcMsg := "", configExc := none,
    solveExc := none, solveErr := some [],
    feedWaterRead := .ok 100, prodWaterRead := .ok 40,
    prodEthanolRead := .ok 60, tempRead := .ok 300, dutyRead := .ok 0 }

/-- envOk with an induced solver failure. -/
def envSolveFail : PfrEnv :=
  { envOk with solveErr := some ["solver diverged"] }

/-- A three-case sweep environment in which exactly the middle case fails. -/
def envf3 : ℚ × ℚ → PfrEnv :=
  fun c => if c.2 = 2 then envSolveFail else envOk

/-- Three concrete cases for the induced-failure scenario. -/
def cases3 : List (ℚ × ℚ) := [(300, 1), (300, 2), (300, 3)]

/-- envOk with an unguarded temperature-read failure. -/
def envTempReadFail : PfrEnv :=
  { envOk with tempRead := .error "PropertyReadFailure" }

/-- envOk with a binding-exhausted capability set (no strategy lands). -/
def envBindExhausted : PfrEnv :=
  { envOk with
      caps := ⟨false, false, false, false⟩
      bindExcMsg := "Property Reaction Set not found" }

/-- envOk with a guarded flow-read failure on the feed stream. -/
def envFlowReadFail : PfrEnv :=
  { envOk with feedWaterRead := .error "PropertyReadFailure" }

/-- A distillation-case environment whose condenser-duty read fails. -/
def denvCondFail : DistEnv :=
  { timestamp := "00:00:00", earlyExc := none, solveExc := none,
    solveErr := some [],
    condDutyRead := .error "PropertyReadFailure", rebDutyRead := .ok 7 }

/-- A distillation-case environment in which every interaction succeeds
but the solver reports errors. -/
def denvSolveFail : DistEnv :=
  { timestamp := "00:00:00", earlyExc := none, solveExc := none,
    solveErr := some ["column did not converge"],
    condDutyRead := .ok 5, rebDutyRead := .ok 7 }

/-- A startup environment in which no candidate path exists and the
interactive input is empty. -/
def senvNotFound : StartupEnv :=
  { localAppData := "C:\\Users\\u\\AppData\\Local", pathExists := fun _ => false,
    userInput := "", assembliesLoadOk := true }

/-- A startup environment in which the first candidate path exists but the
assemblies fail to load. -/
def senvLoadFail : StartupEnv :=
  { localAppData := "C:\\Users\\u\\AppData\\Local", pathExists := fun _ => true,
    userInput := "", assembliesLoadOk := false }

/-- A startup environment in which startup fully succeeds. -/
def senvOk : StartupEnv :=
  { localAppData := "C:\\Users\\u\\AppData\\Local", pathExists := fun _ => true,
    userInput := "", assembliesLoadOk := true }

end DwsimScreening

namespace DwsimScreening

/-! ### Helper lemmas -/

theorem lookupRow_append (k : String) (r s : Row) :
    lookupRow k (r ++ s) =
      match lookupRow k r with
      | some v => some v
      | none => lookupRow k s := by
  induction r with
  | nil => rfl
  | cons kv rest ih =>
      by_cases h : kv.1 = k <;> simp [lookupRow, h, ih]

theorem lookupRow_eq_none (k : String) (r : Row) :
    lookupRow k r = none ↔ k ∉ rowKeys r := by
  induction r with
  | nil => simp [lookupRow, rowKeys]
  | cons kv rest ih =>
      by_cases h : kv.1 = k
      · subst h; simp [lookupRow, rowKeys]
      · simp [lookupRow, rowKeys, h, Ne.symm h, ih]

/-! ### First easy claims -/

/-- C1 counterexample: a unit whose capability set supports exactly
strategies 2 ("ReactionSet" indexed) and 3 ("ReactionSetID") is bound by
run_screening.py through strategy 3, not strategy 2, contradicting the
claimed fixed priority order; moreover debug_pfr.py never attempts
strategy 3 at all, so a unit supporting only strategy 3 is left unbound
there although the claimed order would bind it. -/
theorem C1_counterexample :
    bindReactionSetScreening ⟨false, true, true, false⟩ = some Strategy.reactionSetID ∧
    Strategy.reactionSetID ≠ Strategy.reactionSetNoSpace ∧
    bindReactionSetSpec ⟨false, true, true, false⟩ = some Strategy.reactionSetNoSpace ∧
    bindReactionSetDebug ⟨false, false, true, false⟩ = none ∧
    bindReactionSetSpec ⟨false, false, true, false⟩ = some Strategy.reactionSetID :=
  ⟨rfl, by decide, rfl, rfl, rfl⟩

/-- C1 amended: each script picks the first applicable strategy of its own
fixed order; run_screening.py uses the order (3) "ReactionSetID", then
(1) "Reaction Set", while debug_pfr.py uses (1) "Reaction Set", then
(2) "ReactionSet", then (4) dynamic attribute, omitting (3). -/
theorem C1_binding_order (caps : UnitCaps) :
    bindReactionSetScreening caps =
      firstApplicable [Strategy.reactionSetID, Strategy.reactionSetIndexed] caps ∧
    bindReactionSetDebug caps =
      firstApplicable
        [Strategy.reactionSetIndexed, Strategy.reactionSetNoSpace,
         Strategy.dynamicAttr] caps := by
  obtain ⟨a, b, c, d⟩ := caps
  cases a <;> cases b <;> cases c <;> cases d <;> exact ⟨rfl, rfl⟩

/-- C4 counterexample: the claim states the conversion metric equals
(inlet - outlet) / inlet for every inlet and outlet value, but at
inlet = -1, outlet = 1 the code yields 0 while the formula yields 2. -/
theorem C4_counterexample :
    conversion (-1) 1 = 0 ∧ ((-1 : ℚ) - 1) / (-1 : ℚ) = 2 ∧ (0 : ℚ) ≠ 2 :=
  ⟨by norm_num [conversion], by norm_num, by norm_num⟩

/-- C4 amended: the conversion metric equals (inlet - outlet) / inlet when
inlet is positive and 0 otherwise (in particular 0 at inlet = 0, with no
division performed); inlet 100 and outlet 40 give 3/5. -/
theorem C4_conversion (i o : ℚ) :
    (0 < i → conversion i o = (i - o) / i) ∧
    (¬ 0 < i → conversion i o = 0) ∧
    conversion 100 40 = 3 / 5 ∧ conversion 0 o = 0 := by
  refine ⟨fun h => by simp [conversion, h], fun h => by simp [conversion, h], ?_, ?_⟩
  · norm_num [conversion]
  · simp [conversion]

/-- C4 witness: the amended theorem applied at inlet 100, outlet 40. -/
theorem C4_conversion_witness :
    (0 : ℚ) < 100 ∧ conversion 100 40 = (100 - 40) / 100 :=
  ⟨by norm_num, (C4_conversion 100 40).1 (by norm_num)⟩

/-- C9: every distillation case that reaches its logging step records the
hard-coded placeholder 0.95 as DistillatePurity, whatever the solver
returned. -/
theorem C9_distillate_purity (env : DistEnv) (rr st cd rd : ℚ)
    (h1 : env.earlyExc = none) (h2 : env.solveExc = none)
    (h3 : env.condDutyRead = Except.ok cd) (h4 : env.rebDutyRead = Except.ok rd) :
    lookupRow "DistillatePurity" (runDistCase env rr st).1 =
      some (Value.num 0.95) := by
  obtain ⟨ts, e1, e2, serr, r1, r2⟩ := env
  simp only at h1 h2 h3 h4
  subst h1; subst h2; subst h3; subst h4
  simp [runDistCase, distOkRow, lookupRow]

/-- C9 witness: a concrete distillation case whose solver reported errors
still records DistillatePurity 0.95. -/
theorem C9_distillate_purity_witness :
    denvSolveFail.earlyExc = none ∧ denvSolveFail.solveExc = none ∧
    denvSolveFail.condDutyRead = Except.ok 5 ∧
    denvSolveFail.rebDutyRead = Except.ok 7 ∧
    lookupRow "DistillatePurity" (runDistCase denvSolveFail (3/2) 10).1 =
      some (Value.num 0.95) :=
  ⟨rfl, rfl, rfl, rfl,
    C9_distillate_purity denvSolveFail (3/2) 10 5 7 rfl rfl rfl rfl⟩

/-- C10: the solve wrapper reports success exactly when the engine call
returned a null reference or an empty error list; null is normalised to
(true, empty list) and a returned list is passed through unchanged. -/
theorem C10_solve_normalisation (e : Option (List String)) (l : List String) :
    run_simulation none = (true, []) ∧
    (run_simulation (some l)).2 = l ∧
    ((run_simulation (some l)).1 = true ↔ l = []) ∧
    ((run_simulation e).1 = true ↔ e = none ∨ e = some []) := by
  refine ⟨rfl, rfl, ?_, ?_⟩
  · simp [run_simulation]
  · cases e with
    | none => simp [run_simulation]
    | some m => simp [run_simulation]

end DwsimScreening

namespace DwsimScreening

theorem foldl_append_map {γ : Type} (g : γ → Row) (cs : List γ) (results : List Row) :
    cs.foldl (fun acc c => acc ++ [g c]) results = results ++ cs.map g := by
  induction cs generalizing results with
  | nil => simp
  | cons c cs ih => simp [List.foldl_cons, ih]

theorem runPfrSweepOn_eq_map (cs : List (ℚ × ℚ)) (envf : ℚ × ℚ → PfrEnv)
    (results : List Row) :
    runPfrSweepOn cs envf results =
      results ++ cs.map (fun c =>
        tagRow "PFR_Sweep" (envf c).timestamp (runPfrCase (envf c) c.1 c.2).1) :=
  foldl_append_map _ cs results

theorem runDistSweepOn_eq_map (cs : List (ℚ × ℚ)) (envf : ℚ × ℚ → DistEnv)
    (results : List Row) :
    runDistSweepOn cs envf results =
      results ++ cs.map (fun c =>
        tagRow "Distillation_Sweep" (envf c).timestamp
          (runDistCase (envf c) c.1 c.2).1) :=
  foldl_append_map _ cs results

theorem runPfrSweepOn_length (cs : List (ℚ × ℚ)) (envf : ℚ × ℚ → PfrEnv)
    (results : List Row) :
    (runPfrSweepOn cs envf results).length = results.length + cs.length := by
  simp [runPfrSweepOn_eq_map]

theorem runDistSweepOn_length (cs : List (ℚ × ℚ)) (envf : ℚ × ℚ → DistEnv)
    (results : List Row) :
    (runDistSweepOn cs envf results).length = results.length + cs.length := by
  simp [runDistSweepOn_eq_map]

theorem pairCases_eq_product {α β : Type} (as : List α) (bs : List β) :
    pairCases as bs = as ×ˢ bs := rfl

theorem pairCases_length {α β : Type} (as : List α) (bs : List β) :
    (pairCases as bs).length = as.length * bs.length := by
  rw [pairCases_eq_product]; exact List.length_product as bs

theorem pairCases_nodup {α β : Type} {as : List α} {bs : List β}
    (h1 : as.Nodup) (h2 : bs.Nodup) : (pairCases as bs).Nodup := by
  rw [pairCases_eq_product]; exact h1.product h2

theorem pairCases_cons {α β : Type} (a : α) (as : List α) (bs : List β) :
    pairCases (a :: as) bs = bs.map (fun b => (a, b)) ++ pairCases as bs := by
  simp [pairCases]

theorem pairCases_getElem? {α β : Type} (as : List α) (bs : List β) (i j : ℕ)
    (hi : i < as.length) (hj : j < bs.length) :
    (pairCases as bs)[i * bs.length + j]? =
      some (as.get ⟨i, hi⟩, bs.get ⟨j, hj⟩) := by
  induction as generalizing i with
  | nil => simp at hi
  | cons a as ih =>
    rw [pairCases_cons]
    cases i with
    | zero =>
      rw [Nat.zero_mul, Nat.zero_add, List.getElem?_append,
        if_pos (by simpa using hj)]
      simp [List.getElem?_eq_getElem (by simpa using hj)]
    | succ i =>
      have hi' : i < as.length := by simpa using hi
      have hge : ¬ (i + 1) * bs.length + j < (bs.map (fun b => (a, b))).length := by
        simp [Nat.succ_mul]; omega
      rw [List.getElem?_append, if_neg hge]
      have hsub : (i + 1) * bs.length + j - (bs.map (fun b => (a, b))).length =
          i * bs.length + j := by
        simp [Nat.succ_mul]; omega
      rw [hsub, ih i hi']
      simp

end DwsimScreening

namespace DwsimScreening

theorem consPair_injective {α : Type} :
    Function.Injective (fun p : α × List α => p.1 :: p.2) := by
  rintro ⟨a, c⟩ ⟨b, d⟩ h
  simp only [List.cons.injEq] at h
  exact Prod.ext h.1 h.2

theorem cartProd_cons {α : Type} (ax : List α) (rest : List (List α)) :
    cartProd (ax :: rest) =
      (pairCases ax (cartProd rest)).map (fun p => p.1 :: p.2) := by
  simp [cartProd, pairCases, List.map_flatMap, List.map_map, Function.comp_def]

theorem cartProd_length {α : Type} (axes : List (List α)) :
    (cartProd axes).length = (axes.map List.length).prod := by
  induction axes with
  | nil => rfl
  | cons ax rest ih =>
      rw [cartProd_cons]
      simp [pairCases_length, ih]

theorem cartProd_nodup {α : Type} (axes : List (List α))
    (h : ∀ ax ∈ axes, ax.Nodup) : (cartProd axes).Nodup := by
  induction axes with
  | nil => simp [cartProd]
  | cons ax rest ih =>
      rw [cartProd_cons]
      refine List.Nodup.map consPair_injective ?_
      exact pairCases_nodup (h ax (by simp))
        (ih (fun a ha => h a (by simp [ha])))

theorem pyStrList_ne_empty (l : List String) : pyStrList l ≠ "" := by
  intro h
  have h2 := congrArg String.length h
  rw [pyStrList, String.length_append, String.length_append] at h2
  have e1 : "[".length = 1 := rfl
  have e2 : "]".length = 1 := rfl
  have e3 : ("" : String).length = 0 := rfl
  rw [e1, e2, e3] at h2
  omega

theorem runPfrCase_lookups (env : PfrEnv) (t v : ℚ) :
    lookupRow "Temperature_K" (runPfrCase env t v).1 = some (Value.num t) ∧
    lookupRow "Volume_m3" (runPfrCase env t v).1 = some (Value.num v) ∧
    lookupRow "CaseType" (runPfrCase env t v).1 = none ∧
    lookupRow "Success" (runPfrCase env t v).1 =
      some (Value.bool (pfrCaseOk env)) := by
  obtain ⟨ts, e1, caps, bm, ce, e2, serr, f1, f2, f3, tr, dr⟩ := env
  cases e1 <;> cases e2 <;> cases tr <;> cases dr <;>
    simp [runPfrCase, pfrFailRow, pfrOkRow, lookupRow, pfrCaseOk,
      Except.isOk, Except.toBool]

theorem runDistCase_lookups (env : DistEnv) (rr st : ℚ) :
    lookupRow "RefluxRatio" (runDistCase env rr st).1 = some (Value.num rr) ∧
    lookupRow "Stages" (runDistCase env rr st).1 = some (Value.num st) ∧
    lookupRow "CaseType" (runDistCase env rr st).1 = none := by
  obtain ⟨ts, e1, e2, serr, r1, r2⟩ := env
  cases e1 <;> cases e2 <;> cases r1 <;> cases r2 <;>
    simp [runDistCase, distFailRow, distOkRow, lookupRow]

theorem lookupRow_tagRow_of_some (k ct ts : String) (r : Row) (v : Value)
    (h : lookupRow k r = some v) :
    lookupRow k (tagRow ct ts r) = some v := by
  simp [tagRow, lookupRow_append, h]

theorem lookupRow_tagRow_caseType (ct ts : String) (r : Row)
    (h : lookupRow "CaseType" r = none) :
    lookupRow "CaseType" (tagRow ct ts r) = some (Value.str ct) := by
  simp [tagRow, lookupRow_append, h, lookupRow]

theorem runPfrCase_error_nonempty (env : PfrEnv) (t v : ℚ)
    (h1 : ∀ m, env.earlyExc = some m → m ≠ "")
    (h2 : ∀ m, env.solveExc = some m → m ≠ "")
    (h3 : ∀ m, env.tempRead = Except.error m → m ≠ "")
    (h4 : ∀ m, env.dutyRead = Except.error m → m ≠ "")
    (hf : pfrCaseOk env = false) :
    ∃ s, lookupRow "Error" (runPfrCase env t v).1 = some (Value.str s) ∧
      s ≠ "" := by
  obtain ⟨ts, e1, caps, bm, ce, e2, serr, f1, f2, f3, tr, dr⟩ := env
  cases e1 with
  | some m =>
      exact ⟨m, by simp [runPfrCase, pfrFailRow, lookupRow], h1 m rfl⟩
  | none =>
    cases e2 with
    | some m =>
        exact ⟨m, by simp [runPfrCase, pfrFailRow, lookupRow], h2 m rfl⟩
    | none =>
      cases tr with
      | error m =>
          exact ⟨m, by simp [runPfrCase, pfrFailRow, lookupRow], h3 m rfl⟩
      | ok tv =>
        cases dr with
        | error m =>
            exact ⟨m, by simp [runPfrCase, pfrFailRow, lookupRow], h4 m rfl⟩
        | ok dv =>
          have hs : (run_simulation serr).1 = false := by
            have h5 := hf
            simp [pfrCaseOk, Except.isOk, Except.toBool] at h5
            exact h5
          refine ⟨pyStrList (run_simulation serr).2, ?_, pyStrList_ne_empty _⟩
          simp [runPfrCase, pfrOkRow, lookupRow, hs]

end DwsimScreening

namespace DwsimScreening

theorem mem_insertKey (acc : List String) (k k2 : String) :
    k ∈ insertKey acc k2 ↔ k ∈ acc ∨ k = k2 := by
  by_cases h : k2 ∈ acc
  · simp only [insertKey, if_pos h]
    constructor
    · exact Or.inl
    · rintro (hk | rfl)
      · exact hk
      · exact h
  · simp [insertKey, h]

theorem nodup_insertKey (acc : List String) (k : String) (h : acc.Nodup) :
    (insertKey acc k).Nodup := by
  by_cases hk : k ∈ acc
  · simpa [insertKey, hk] using h
  · rw [insertKey, if_neg hk]
    refine List.Nodup.append h (List.nodup_singleton k) ?_
    intro x hx hx2
    simp at hx2
    subst hx2
    exact hk hx

theorem insertKey_extends (acc : List String) (k : String) :
    ∃ t, insertKey acc k = acc ++ t := by
  by_cases h : k ∈ acc
  · exact ⟨[], by simp [insertKey, h]⟩
  · exact ⟨[k], by simp [insertKey, h]⟩

theorem rowInsertKeys_cons (acc : List String) (kv : String × Value) (rest : Row) :
    rowInsertKeys acc (kv :: rest) = rowInsertKeys (insertKey acc kv.1) rest := rfl

theorem mem_rowInsertKeys (acc : List String) (r : Row) (k : String) :
    k ∈ rowInsertKeys acc r ↔ k ∈ acc ∨ k ∈ rowKeys r := by
  induction r generalizing acc with
  | nil => simp [rowInsertKeys, rowKeys]
  | cons kv rest ih =>
      rw [rowInsertKeys_cons, ih]
      simp [rowKeys, mem_insertKey]
      tauto

theorem nodup_rowInsertKeys (acc : List String) (r : Row) (h : acc.Nodup) :
    (rowInsertKeys acc r).Nodup := by
  induction r generalizing acc with
  | nil => exact h
  | cons kv rest ih =>
      rw [rowInsertKeys_cons]
      exact ih _ (nodup_insertKey _ _ h)

theorem rowInsertKeys_extends (acc : List String) (r : Row) :
    ∃ t, rowInsertKeys acc r = acc ++ t := by
  induction r generalizing acc with
  | nil => exact ⟨[], by simp [rowInsertKeys]⟩
  | cons kv rest ih =>
      obtain ⟨t1, h1⟩ := insertKey_extends acc kv.1
      obtain ⟨t2, h2⟩ := ih (insertKey acc kv.1)
      refine ⟨t1 ++ t2, ?_⟩
      rw [rowInsertKeys_cons, h2, h1, List.append_assoc]

theorem mem_foldl_rowInsertKeys (rows : List Row) (acc : List String) (k : String) :
    k ∈ rows.foldl rowInsertKeys acc ↔ k ∈ acc ∨ ∃ r ∈ rows, k ∈ rowKeys r := by
  induction rows generalizing acc with
  | nil => simp
  | cons r rows ih =>
      rw [List.foldl_cons, ih]
      simp [mem_rowInsertKeys]
      tauto

theorem mem_csvHeader (rows : List Row) (k : String) :
    k ∈ csvHeader rows ↔ ∃ r ∈ rows, k ∈ rowKeys r := by
  rw [csvHeader, mem_foldl_rowInsertKeys]
  simp

theorem nodup_foldl_rowInsertKeys (rows : List Row) (acc : List String)
    (h : acc.Nodup) : (rows.foldl rowInsertKeys acc).Nodup := by
  induction rows generalizing acc with
  | nil => exact h
  | cons r rows ih =>
      rw [List.foldl_cons]
      exact ih _ (nodup_rowInsertKeys _ _ h)

theorem nodup_csvHeader (rows : List Row) : (csvHeader rows).Nodup :=
  nodup_foldl_rowInsertKeys rows [] List.nodup_nil

theorem csvHeader_snoc (rows : List Row) (r : Row) :
    ∃ t, csvHeader (rows ++ [r]) = csvHeader rows ++ t := by
  rw [csvHeader, List.foldl_append]
  simp only [List.foldl_cons, List.foldl_nil]
  exact rowInsertKeys_extends _ r

theorem csvCell_of_missing (r : Row) (k : String) (h : k ∉ rowKeys r) :
    csvCell r k = "" := by
  rw [csvCell, (lookupRow_eq_none k r).2 h]

end DwsimScreening

namespace DwsimScreening

/-- C7 counterexample: in the EXTRACT step of a case whose engine
interactions otherwise all succeed (the solver even returns an empty
error list), a failing outlet-temperature read does not yield a
placeholder for that metric only: the whole case is recorded as failed
and the temperature metric is absent from the row, contradicting the
claim that a read failure never causes the case itself to fail. -/
theorem C7_counterexample :
    envTempReadFail.solveErr = some [] ∧
    lookupRow "Success" (runPfrCase envTempReadFail 300 1).1 =
      some (Value.bool false) ∧
    lookupRow "OutletTemperature_K" (runPfrCase envTempReadFail 300 1).1 =
      none := by
  refine ⟨rfl, ?_, ?_⟩ <;> rfl

/-- C7 amended: only the component-flow reads (flows and compositions,
via get_comp_flow) are guarded, substituting 0 on failure without
affecting case success; the outlet-temperature and duty reads of the
reactor study and the duty reads of the distillation study are unguarded,
so a failure there aborts the case to the boundary handler and records
the whole case as failed. -/
theorem C7_extract_guards (env : PfrEnv) (denv : DistEnv)
    (t v rr st : ℚ) (m : String) :
    get_comp_flow (Except.error m) = 0 ∧
    (env.earlyExc = none → env.solveExc = none →
      env.tempRead = Except.error m →
      (runPfrCase env t v).1 = pfrFailRow t v m) ∧
    (env.earlyExc = none → env.solveExc = none →
      env.tempRead.isOk = true → env.dutyRead.isOk = true →
      lookupRow "Success" (runPfrCase env t v).1 =
        some (Value.bool (run_simulation env.solveErr).1) ∧
      lookupRow "OutletFlow_B_mol_s" (runPfrCase env t v).1 =
        some (Value.num (get_comp_flow env.prodEthanolRead))) ∧
    (denv.earlyExc = none → denv.solveExc = none →
      denv.condDutyRead = Except.error m →
      (runDistCase denv rr st).1 = distFailRow rr st m) := by
  obtain ⟨ts, e1, caps, bm, ce, e2, serr, f1, f2, f3, tr, dr⟩ := env
  obtain ⟨dts, de1, de2, dserr, dr1, dr2⟩ := denv
  refine ⟨rfl, ?_, ?_, ?_⟩
  · intro h1 h2 h3
    simp only at h1 h2 h3
    subst h1; subst h2; subst h3
    rfl
  · intro h1 h2 h3 h4
    simp only at h1 h2 h3 h4
    subst h1; subst h2
    cases tr with
    | error m2 => simp [Except.isOk, Except.toBool] at h3
    | ok tv2 =>
      cases dr with
      | error m2 => simp [Except.isOk, Except.toBool] at h4
      | ok dv2 => simp [runPfrCase, pfrOkRow, lookupRow]
  · intro h1 h2 h3
    simp only at h1 h2 h3
    subst h1; subst h2; subst h3
    rfl

/-- C7 witness: the amended theorem applied to a case with a guarded
feed-flow read failure (case still carries the solve verdict) and to a
distillation case with a failing condenser-duty read (case recorded as
failed with that message). -/
theorem C7_extract_guards_witness :
    get_comp_flow (Except.error "PropertyReadFailure") = 0 ∧
    lookupRow "Success" (runPfrCase envFlowReadFail 300 1).1 =
      some (Value.bool (run_simulation envFlowReadFail.solveErr).1) ∧
    (runDistCase denvCondFail (3/2) 10).1 =
      distFailRow (3/2) 10 "PropertyReadFailure" :=
  ⟨(C7_extract_guards envFlowReadFail denvCondFail 300 1 (3/2) 10
      "PropertyReadFailure").1,
   ((C7_extract_guards envFlowReadFail denvCondFail 300 1 (3/2) 10
      "PropertyReadFailure").2.2.1 rfl rfl rfl rfl).1,
   (C7_extract_guards envFlowReadFail denvCondFail 300 1 (3/2) 10
      "PropertyReadFailure").2.2.2 rfl rfl rfl⟩

/-- C8 counterexample: a case whose binding attempt is exhausted (no
strategy applies) and whose solve succeeds is recorded with an empty
error field and success true: the binding failure reaches only the
console, contradicting the claim that it is recorded in the error field
of the case. -/
theorem C8_counterexample :
    bindReactionSetScreening envBindExhausted.caps = none ∧
    lookupRow "Error" (runPfrCase envBindExhausted 300 1).1 =
      some (Value.str "") ∧
    lookupRow "Success" (runPfrCase envBindExhausted 300 1).1 =
      some (Value.bool true) ∧
    bindErrLine envBindExhausted.bindExcMsg ∈
      (runPfrCase envBindExhausted 300 1).2 := by
  refine ⟨rfl, rfl, rfl, ?_⟩
  simp [runPfrCase, envBindExhausted, envOk, bindConsole,
    bindReactionSetScreening, configConsole]

/-- C8 amended: when every binding strategy fails the case is not
aborted and still proceeds to SOLVE — its recorded success and error
fields are exactly the solve verdict — but the binding failure is only
printed to the console, never written to the error field of the row. -/
theorem C8_binding_not_fatal (env : PfrEnv) (t v tv dv : ℚ)
    (hb : bindReactionSetScreening env.caps = none)
    (h1 : env.earlyExc = none) (h2 : env.solveExc = none)
    (h3 : env.tempRead = Except.ok tv) (h4 : env.dutyRead = Except.ok dv) :
    bindErrLine env.bindExcMsg ∈ (runPfrCase env t v).2 ∧
    lookupRow "Success" (runPfrCase env t v).1 =
      some (Value.bool (run_simulation env.solveErr).1) ∧
    lookupRow "Error" (runPfrCase env t v).1 =
      some (Value.str (if (run_simulation env.solveErr).1 then ""
        else pyStrList (run_simulation env.solveErr).2)) := by
  obtain ⟨ts, e1, caps, bm, ce, e2, serr, f1, f2, f3, tr, dr⟩ := env
  simp only at hb h1 h2 h3 h4
  subst h1; subst h2; subst h3; subst h4
  refine ⟨?_, ?_, ?_⟩
  · simp [runPfrCase, bindConsole, hb]
  · simp [runPfrCase, pfrOkRow, lookupRow]
  · simp [runPfrCase, pfrOkRow, lookupRow]

/-- C8 witness: the amended theorem applied to the binding-exhausted
environment with a successful solve. -/
theorem C8_binding_not_fatal_witness :
    bindErrLine envBindExhausted.bindExcMsg ∈
      (runPfrCase envBindExhausted 300 1).2 ∧
    lookupRow "Success" (runPfrCase envBindExhausted 300 1).1 =
      some (Value.bool (run_simulation envBindExhausted.solveErr).1) :=
  ⟨(C8_binding_not_fatal envBindExhausted 300 1 300 0 rfl rfl rfl rfl rfl).1,
   (C8_binding_not_fatal envBindExhausted 300 1 300 0 rfl rfl rfl rfl rfl).2.1⟩

end DwsimScreening

namespace DwsimScreening

theorem startup_exit_code (senv : StartupEnv) (n : ℕ)
    (h : startup senv = StartupResult.exit n) : n = 1 := by
  unfold startup at h
  cases hr : resolveDwsimPath senv <;> rw [hr] at h
  · simp at h
    omega
  · cases hb : senv.assembliesLoadOk <;> simp [hb] at h
    omega

/-- C5: the export column set is the union of all keys present in any
recorded row; the header is duplicate-free and grows only by appending
newly seen keys at the end (first-seen order), missing cells render
blank, one data line is emitted per row, an empty row set gives an empty
header and no data lines, and exporting over an existing file twice
leaves byte-identical contents. -/
theorem C5_export (rows : List Row) (r : Row) (k : String) (fs : Option String)
    (hk : k ∉ rowKeys r) :
    (k ∈ csvHeader rows ↔ ∃ rr ∈ rows, k ∈ rowKeys rr) ∧
    (csvHeader rows).Nodup ∧
    (∃ t, csvHeader (rows ++ [r]) = csvHeader rows ++ t) ∧
    csvCell r k = "" ∧
    (csvDataLines rows).length = rows.length ∧
    csvHeader ([] : List Row) = [] ∧
    csvDataLines ([] : List Row) = [] ∧
    exportCsv (exportCsv fs rows) rows = exportCsv fs rows := by
  refine ⟨mem_csvHeader rows k, nodup_csvHeader rows, csvHeader_snoc rows r,
    csvCell_of_missing r k hk, ?_, rfl, rfl, rfl⟩
  simp [csvDataLines]

/-- C5 witness: the export theorem at a concrete one-row set and a row
missing the key A. -/
theorem C5_export_witness :
    "A" ∉ rowKeys [("B", Value.num 1)] ∧
    ("A" ∈ csvHeader [[("A", Value.num 2)]] ↔
      ∃ rr ∈ [[("A", Value.num 2)]], "A" ∈ rowKeys rr) ∧
    csvCell [("B", Value.num 1)] "A" = "" ∧
    exportCsv (exportCsv none [[("A", Value.num 2)]]) [[("A", Value.num 2)]] =
      exportCsv none [[("A", Value.num 2)]] := by
  have hk : "A" ∉ rowKeys [("B", Value.num 1)] := by decide
  have h := C5_export [[("A", Value.num 2)]] [("B", Value.num 1)] "A" none hk
  exact ⟨hk, h.1, h.2.2.2.1, h.2.2.2.2.2.2.2⟩

/-- C2: the case generator (nested loops, first axis outermost) yields
exactly the cartesian-product count of combinations, all distinct when
the axes are duplicate-free, in deterministic nested-loop order (the
element at flat index i*|bs|+j is the pair of the i-th outer and j-th
inner axis value); the two concrete 3x3 sweeps attempt 9+9 = 18 cases
in total and each appended result row carries its case-type tag and both
parameter values. -/
theorem C2_case_generator (axes : List (List ℚ)) (as bs : List ℚ) (i j : ℕ)
    (envP : ℚ × ℚ → PfrEnv) (envD : ℚ × ℚ → DistEnv)
    (hax : ∀ ax ∈ axes, ax.Nodup) (hi : i < as.length) (hj : j < bs.length) :
    (cartProd axes).length = (axes.map List.length).prod ∧
    (cartProd axes).Nodup ∧
    (pairCases as bs)[i * bs.length + j]? =
      some (as.get ⟨i, hi⟩, bs.get ⟨j, hj⟩) ∧
    pfrCases = pairCases temperatures volumes ∧
    distCases = pairCases reflux_ratios stages_list ∧
    pfrCases.length = 9 ∧ distCases.length = 9 ∧
    pfrCases.Nodup ∧ distCases.Nodup ∧
    (runDistSweepOn distCases envD (runPfrSweepOn pfrCases envP [])).length
      = 18 ∧
    runPfrSweepOn pfrCases envP [] = pfrCases.map (fun c =>
      tagRow "PFR_Sweep" (envP c).timestamp (runPfrCase (envP c) c.1 c.2).1) ∧
    (∀ c : ℚ × ℚ,
      lookupRow "CaseType"
        (tagRow "PFR_Sweep" (envP c).timestamp
          (runPfrCase (envP c) c.1 c.2).1) = some (Value.str "PFR_Sweep") ∧
      lookupRow "Temperature_K"
        (tagRow "PFR_Sweep" (envP c).timestamp
          (runPfrCase (envP c) c.1 c.2).1) = some (Value.num c.1) ∧
      lookupRow "Volume_m3"
        (tagRow "PFR_Sweep" (envP c).timestamp
          (runPfrCase (envP c) c.1 c.2).1) = some (Value.num c.2)) ∧
    (∀ c : ℚ × ℚ,
      lookupRow "CaseType"
        (tagRow "Distillation_Sweep" (envD c).timestamp
          (runDistCase (envD c) c.1 c.2).1) =
            some (Value.str "Distillation_Sweep") ∧
      lookupRow "RefluxRatio"
        (tagRow "Distillation_Sweep" (envD c).timestamp
          (runDistCase (envD c) c.1 c.2).1) = some (Value.num c.1) ∧
      lookupRow "Stages"
        (tagRow "Distillation_Sweep" (envD c).timestamp
          (runDistCase (envD c) c.1 c.2).1) = some (Value.num c.2)) := by
  refine ⟨cartProd_length axes, cartProd_nodup axes hax,
    pairCases_getElem? as bs i j hi hj, rfl, rfl, rfl, rfl, ?_, ?_, ?_,
    runPfrSweepOn_eq_map _ _ _, ?_, ?_⟩
  · refine pairCases_nodup ?_ ?_
    · norm_num [temperatures]
    · norm_num [volumes]
  · refine pairCases_nodup ?_ ?_
    · norm_num [reflux_ratios]
    · norm_num [stages_list]
  · rw [runDistSweepOn_length, runPfrSweepOn_length]
    rfl
  · intro c
    obtain ⟨hT, hV, hCT, _⟩ := runPfrCase_lookups (envP c) c.1 c.2
    exact ⟨lookupRow_tagRow_caseType _ _ _ hCT,
      lookupRow_tagRow_of_some _ _ _ _ _ hT,
      lookupRow_tagRow_of_some _ _ _ _ _ hV⟩
  · intro c
    obtain ⟨hR, hS, hCT⟩ := runDistCase_lookups (envD c) c.1 c.2
    exact ⟨lookupRow_tagRow_caseType _ _ _ hCT,
      lookupRow_tagRow_of_some _ _ _ _ _ hR,
      lookupRow_tagRow_of_some _ _ _ _ _ hS⟩

/-- C2 witness: the generator theorem at the concrete axes of the two
sweeps, with flat index 1*3+2 picking the second temperature and third
volume. -/
theorem C2_case_generator_witness :
    (∀ ax ∈ [temperatures, volumes], ax.Nodup) ∧
    (cartProd [temperatures, volumes]).length =
      ([temperatures, volumes].map List.length).prod ∧
    (pairCases temperatures volumes)[1 * volumes.length + 2]? =
      some (temperatures.get ⟨1, by decide⟩, volumes.get ⟨2, by decide⟩) ∧
    (runDistSweepOn distCases (fun _ => denvSolveFail)
      (runPfrSweepOn pfrCases (fun _ => envOk) [])).length = 18 := by
  have hax : ∀ ax ∈ [temperatures, volumes], ax.Nodup := by
    intro ax hx
    simp at hx
    rcases hx with h | h <;> subst h
    · norm_num [temperatures]
    · norm_num [volumes]
  have h := C2_case_generator [temperatures, volumes] temperatures volumes 1 2
    (fun _ => envOk) (fun _ => denvSolveFail) hax (by decide) (by decide)
  exact ⟨hax, h.1, h.2.2.1, h.2.2.2.2.2.2.2.2.2.1⟩

end DwsimScreening

namespace DwsimScreening

/-- C3: each case logs exactly one row — the sweep output is the incoming
results plus one tagged row per case in order, so an n-case sweep always
appends n rows; the recorded success flag equals (solve succeeded AND no
unguarded exception occurred anywhere in the case); a failed case records
a non-empty error string (given that raised exception messages are
non-empty; the solver-error branch is always non-empty since the error
list is rendered in brackets); the concrete 3-case sweep with one induced
solver failure yields exactly 3 rows, exactly one of them failed. -/
theorem C3_one_row_per_case (cs : List (ℚ × ℚ)) (envf : ℚ × ℚ → PfrEnv)
    (results : List Row) (env : PfrEnv) (t v : ℚ)
    (h1 : ∀ m, env.earlyExc = some m → m ≠ "")
    (h2 : ∀ m, env.solveExc = some m → m ≠ "")
    (h3 : ∀ m, env.tempRead = Except.error m → m ≠ "")
    (h4 : ∀ m, env.dutyRead = Except.error m → m ≠ "") :
    runPfrSweepOn cs envf results =
      results ++ cs.map (fun c =>
        tagRow "PFR_Sweep" (envf c).timestamp (runPfrCase (envf c) c.1 c.2).1) ∧
    (runPfrSweepOn cs envf results).length = results.length + cs.length ∧
    lookupRow "Success" (runPfrCase env t v).1 =
      some (Value.bool (pfrCaseOk env)) ∧
    (pfrCaseOk env = false →
      ∃ s, lookupRow "Error" (runPfrCase env t v).1 = some (Value.str s) ∧
        s ≠ "") ∧
    (runPfrSweepOn cases3 envf3 []).length = 3 ∧
    (runPfrSweepOn cases3 envf3 []).countP
      (fun r => decide (lookupRow "Success" r = some (Value.bool false)))
      = 1 := by
  refine ⟨runPfrSweepOn_eq_map cs envf results,
    runPfrSweepOn_length cs envf results,
    (runPfrCase_lookups env t v).2.2.2,
    fun hf => runPfrCase_error_nonempty env t v h1 h2 h3 h4 hf, ?_, ?_⟩
  · rw [runPfrSweepOn_length]
    rfl
  · decide

/-- C3 witness: the theorem at the concrete 3-case sweep with one induced
solver failure and at the failing middle case. -/
theorem C3_one_row_per_case_witness :
    (runPfrSweepOn cases3 envf3 []).length = 3 ∧
    pfrCaseOk envSolveFail = false ∧
    (∃ s, lookupRow "Error" (runPfrCase envSolveFail 300 2).1 =
      some (Value.str s) ∧ s ≠ "") := by
  have hf : pfrCaseOk envSolveFail = false := by decide
  have h := C3_one_row_per_case cases3 envf3 [] envSolveFail 300 2
    (fun m hm => by simp [envSolveFail, envOk] at hm)
    (fun m hm => by simp [envSolveFail, envOk] at hm)
    (fun m hm => by simp [envSolveFail, envOk] at hm)
    (fun m hm => by simp [envSolveFail, envOk] at hm)
  exact ⟨h.2.2.2.2.1, hf, h.2.2.2.1 hf⟩

/-- C6: a fatal startup failure (no installation path resolved, or
assemblies unloadable) makes the run terminate with the non-zero exit
status 1 before producing any case row, while a successful startup always
yields all 18 case rows, whatever failures the individual cases suffer —
no case-level behaviour terminates the run. -/
theorem C6_fatal_vs_case_errors (senv : StartupEnv)
    (envP : ℚ × ℚ → PfrEnv) (envD : ℚ × ℚ → DistEnv) :
    (∀ n, startup senv = StartupResult.exit n →
      n ≠ 0 ∧ mainRun senv envP envD = Except.error n) ∧
    (∀ p, startup senv = StartupResult.ok p →
      ∃ rows, mainRun senv envP envD = Except.ok rows ∧ rows.length = 18) := by
  constructor
  · intro n h
    have h1 : n = 1 := startup_exit_code senv n h
    refine ⟨by omega, ?_⟩
    unfold mainRun
    rw [h]
  · intro p h
    refine ⟨runDistSweepOn distCases envD (runPfrSweepOn pfrCases envP []),
      ?_, ?_⟩
    · unfold mainRun
      rw [h]
    · rw [runDistSweepOn_length, runPfrSweepOn_length]
      rfl

/-- C6 witness: the theorem applied to a startup environment in which no
installation is found and the input is empty (run exits 1 with no rows),
and to one in which startup succeeds (run yields 18 rows), both with a
case environment whose solver fails on every distillation case. -/
theorem C6_fatal_vs_case_errors_witness :
    ((1 : ℕ) ≠ 0 ∧
      mainRun senvNotFound (fun _ => envOk) (fun _ => denvSolveFail) =
        Except.error 1) ∧
    (∃ rows, mainRun senvOk (fun _ => envOk) (fun _ => denvSolveFail) =
        Except.ok rows ∧ rows.length = 18) :=
  ⟨(C6_fatal_vs_case_errors senvNotFound (fun _ => envOk)
      (fun _ => denvSolveFail)).1 1 rfl,
   (C6_fatal_vs_case_errors senvOk (fun _ => envOk)
      (fun _ => denvSolveFail)).2 (senvOk.localAppData ++ "\\DWSIM") rfl⟩

end DwsimScreening
